import Mathlib

/-!
Verification of the eager-initialization singleton in `src/singleton.cpp`.

The source declares a class `Singleton` with
  * a public static accessor `GetInstance()` whose whole body is
    `return &instance;` (lines 8-11),
  * deleted copy constructor, copy assignment, move constructor and move
    assignment (lines 14-17),
  * a private defaulted default constructor (line 21),
  * a static data member `Singleton instance` defined at namespace scope
    (line 28), so it is constructed during load-time static initialization,
    before `main` runs.

The embedding models
  * a link-time memory layout assigning each static-storage object a fixed
    nonzero address (in C++ the address of an object is never null),
  * the observable process state: whether the static instance is constructed,
    how many `Singleton` objects are alive, and how many heap allocations
    have occurred,
  * the accessor body as a statement in a small language that also contains
    the guarded lazy-initialization pattern of the Meyers singleton shown in
    the repository README, so that the absence of a conditional
    initialization check on the eager accessor's path is a provable fact,
  * the class's special-member declarations as data, with the C++
    well-formedness rule that selecting a deleted function or using a
    private member from outside the class fails to build,
  * process executions as traces: load-time static initialization followed
    by any number of `GetInstance` calls.
-/

namespace SingletonRepo

/-- Machine addresses; address `0` is the null pointer. -/
abbrev Addr := Nat

/-- The objects with static storage duration declared by the program.
`singleton.cpp` declares exactly one: `Singleton Singleton::instance`
(line 28). -/
inductive StaticObj : Type
  | singletonInstance
  deriving DecidableEq

/-- A link-time memory layout assigns each static object its fixed address.
In C++ the address of a live object never compares equal to `nullptr`, so a
layout places every static object at a nonzero address. -/
structure Layout : Type where
  addrOf : StaticObj → Addr
  addr_ne_null : ∀ o, addrOf o ≠ 0

/-- The payload type: `class Singleton` declares no data members, so its
values carry no state. -/
structure Singleton : Type
  deriving DecidableEq

/-- State of the holder: `Uninitialized` before load-time construction of the
static instance completes (not observable by any caller), `Ready` afterwards. -/
inductive HolderState : Type
  | Uninitialized
  | Ready
  deriving DecidableEq

/-- Observable process state: the holder's state, the number of `Singleton`
objects currently alive, and the number of dynamic allocations performed. -/
structure ProcState : Type where
  holder : HolderState
  instanceCount : Nat
  allocCount : Nat
  deriving DecidableEq

/-- Member accessibility as written in the class. -/
inductive Access : Type
  | publicAcc
  | privateAcc
  deriving DecidableEq

/-- How a special member function is declared. -/
inductive MemberDef : Type
  | defaulted
  | deleted
  deriving DecidableEq

/-- A special member function declaration: its access and its definition. -/
structure SpecialMember : Type where
  access : Access
  defn : MemberDef
  deriving DecidableEq

/-- Declaration `Singleton() = default;` under `private:` (line 21). -/
def defaultCtorDecl : SpecialMember := ⟨.privateAcc, .defaulted⟩

/-- Declaration `Singleton(const Singleton&) = delete;` (line 14). -/
def copyCtorDecl : SpecialMember := ⟨.publicAcc, .deleted⟩

/-- Declaration `Singleton& operator=(const Singleton&) = delete;` (line 15). -/
def copyAssignDecl : SpecialMember := ⟨.publicAcc, .deleted⟩

/-- Declaration `Singleton(Singleton&&) = delete;` (line 16). -/
def moveCtorDecl : SpecialMember := ⟨.publicAcc, .deleted⟩

/-- Declaration `Singleton& operator=(Singleton&&) = delete;` (line 17). -/
def moveAssignDecl : SpecialMember := ⟨.publicAcc, .deleted⟩

/-- Accessibility of `GetInstance`, declared under `public:` (lines 5-9). -/
def getInstanceAccess : Access := .publicAcc

/-- Where a use of a class member occurs: in a member of the class itself
(including definitions of its static members), or in outside code. -/
inductive Context : Type
  | insideClass
  | outsideClass
  deriving DecidableEq

/-- C++ well-formedness of a use of a special member function: a program that
selects a deleted function is ill-formed wherever the use occurs, and a
private member is usable only from the class's own members. `usable c m`
holds exactly when code in context `c` that uses member `m` builds. -/
def usable (c : Context) (m : SpecialMember) : Bool :=
  !(m.defn == MemberDef.deleted) &&
    ((m.access == Access.publicAcc) || (c == Context.insideClass))

/-- The three constructor kinds of the class. -/
inductive CtorKind : Type
  | defaultK
  | copyK
  | moveK
  deriving DecidableEq

/-- The declaration each constructor kind has in `singleton.cpp`. -/
def ctorDecl : CtorKind → SpecialMember
  | .defaultK => defaultCtorDecl
  | .copyK => copyCtorDecl
  | .moveK => moveCtorDecl

/-- Actions a constructor body may perform: read another static-storage
object, or allocate on the heap. -/
inductive CtorAction : Type
  | readStatic (o : StaticObj)
  | heapAlloc
  deriving DecidableEq

/-- Body of `Singleton() = default;` (line 21): the class has no data members
and no base classes, so the defaulted default constructor performs no
actions at all. -/
def singletonCtorBody : List CtorAction := []

/-- Effect of one constructor action on the process state. -/
def execCtorAction (s : ProcState) : CtorAction → ProcState
  | .readStatic _ => s
  | .heapAlloc => { s with allocCount := s.allocCount + 1 }

/-- Effect of a whole constructor body on the process state. -/
def execCtorBody (s : ProcState) (l : List CtorAction) : ProcState :=
  l.foldl execCtorAction s

/-- Static-storage objects read by a constructor body. -/
def ctorReads (l : List CtorAction) : List StaticObj :=
  l.filterMap fun a =>
    match a with
    | .readStatic o => some o
    | .heapAlloc => none

/-- Running the constructor of the static instance: execute the constructor
body, after which the object is alive and the holder is `Ready`. -/
def runCtor (s : ProcState) : ProcState :=
  let s' := execCtorBody s singletonCtorBody
  { s' with holder := .Ready, instanceCount := s'.instanceCount + 1 }

/-- Runtime errors a C++ call could signal. -/
inductive CppError : Type
  | exceptionThrown
  deriving DecidableEq

/-- Expressions occurring in accessor bodies: taking the address of a
static-storage object. -/
inductive Expr : Type
  | addrOfStatic (o : StaticObj)
  deriving DecidableEq

/-- Statements of accessor bodies. `retE e` returns the value of `e`;
`checkInitThen k` is the guarded lazy-initialization step (test the holder
and run the constructor if it has not run yet, then continue with `k`) that
the Meyers singleton shown in the repository README performs on every call. -/
inductive Stmt : Type
  | retE (e : Expr)
  | checkInitThen (k : Stmt)
  deriving DecidableEq

/-- Evaluation of an expression: taking the address of a static object reads
the link-time constant address and does not change the state. -/
def evalExpr (L : Layout) (s : ProcState) : Expr → Except CppError (ProcState × Addr)
  | .addrOfStatic o => .ok (s, L.addrOf o)

/-- Execution of an accessor body statement. -/
def execStmt (L : Layout) : ProcState → Stmt → Except CppError (ProcState × Addr)
  | s, .retE e => evalExpr L s e
  | s, .checkInitThen k =>
    execStmt L (if s.holder = HolderState.Uninitialized then runCtor s else s) k

/-- Body of `Singleton::GetInstance` (lines 8-11): `return &instance;`. -/
def getInstanceBody : Stmt := .retE (.addrOfStatic .singletonInstance)

/-- `Singleton::GetInstance()` (lines 8-11): execute the accessor body in the
current process state under the program's layout. -/
def GetInstance (L : Layout) (s : ProcState) : Except CppError (ProcState × Addr) :=
  execStmt L s getInstanceBody

/-- Body of the lazy Meyers accessor shown in the repository README
(`static Singleton instance; return instance;`): a guarded initialization
check followed by the address read. For contrast with `getInstanceBody`. -/
def meyersBody : Stmt := .checkInitThen (.retE (.addrOfStatic .singletonInstance))

/-- Whether an accessor body performs a conditional initialization check. -/
def hasInitCheck : Stmt → Bool
  | .retE _ => false
  | .checkInitThen _ => true

/-- Events of a process execution: the load-time static initialization phase
(which constructs `Singleton::instance`, line 28), and a call to
`GetInstance` by any caller. -/
inductive Event : Type
  | loadInit
  | callGetInstance
  deriving DecidableEq

/-- One step of the process: load-time initialization runs the constructor of
the static instance and yields no value; a `GetInstance` call executes the
accessor and yields the returned address. -/
def runEvent (L : Layout) (s : ProcState) : Event → Except CppError (ProcState × Option Addr)
  | .loadInit => .ok (runCtor s, none)
  | .callGetInstance => (GetInstance L s).map fun p => (p.1, some p.2)

/-- Execution of a trace of events, collecting the addresses returned by the
`GetInstance` calls. -/
def runTrace (L : Layout) : ProcState → List Event → Except CppError (ProcState × List Addr)
  | s, [] => .ok (s, [])
  | s, e :: es =>
    match runEvent L s e with
    | .error err => .error err
    | .ok (s', a?) =>
      match runTrace L s' es with
      | .error err => .error err
      | .ok (sf, as) => .ok (sf, a?.toList ++ as)

/-- States in which the successive events of a trace begin executing. -/
def preStates (L : Layout) : ProcState → List Event → List ProcState
  | _, [] => []
  | s, e :: es =>
    s :: (match runEvent L s e with
          | .ok (s', _) => preStates L s' es
          | .error _ => [])

/-- Process state before load-time initialization: the holder is not yet
initialized, no `Singleton` object is alive, nothing is allocated. -/
def initState : ProcState := ⟨.Uninitialized, 0, 0⟩

/-- The process state once load-time static initialization has completed. -/
def afterLoad : ProcState := runCtor initState

/-- A process execution: C++ performs static initialization of
`Singleton::instance` at load time, before any caller runs, so every trace
of the program is `loadInit` followed by the callers' `GetInstance` calls. -/
def progTrace (n : Nat) : List Event :=
  .loadInit :: List.replicate n .callGetInstance

/-- A concrete layout: the linker places `Singleton::instance` at a fixed
nonzero address in the `.bss` segment. -/
def defaultLayout : Layout where
  addrOf := fun _ => 4198400
  addr_ne_null := fun o => by cases o; decide

theorem GetInstance_eq (L : Layout) (s : ProcState) :
    GetInstance L s = .ok (s, L.addrOf .singletonInstance) := rfl

theorem runEvent_call (L : Layout) (s : ProcState) :
    runEvent L s .callGetInstance = .ok (s, some (L.addrOf .singletonInstance)) := rfl

theorem runTrace_calls (L : Layout) (s : ProcState) (n : Nat) :
    runTrace L s (List.replicate n .callGetInstance) =
      .ok (s, List.replicate n (L.addrOf .singletonInstance)) := by
  induction n with
  | zero => rfl
  | succ n ih =>
    simp only [List.replicate, runTrace, runEvent_call, ih]
    rfl

theorem runTrace_prog (L : Layout) (n : Nat) :
    runTrace L initState (progTrace n) =
      .ok (afterLoad, List.replicate n (L.addrOf .singletonInstance)) := by
  simp only [progTrace, runTrace, runEvent, runTrace_calls]
  rfl

theorem preStates_calls (L : Layout) (s : ProcState) (n : Nat) :
    preStates L s (List.replicate n .callGetInstance) = List.replicate n s := by
  induction n with
  | zero => rfl
  | succ n ih =>
    simp only [List.replicate, preStates, runEvent_call, ih]

theorem preStates_prog (L : Layout) (n : Nat) :
    preStates L initState (progTrace n) = initState :: List.replicate n afterLoad := by
  simp only [progTrace, preStates, runEvent, preStates_calls]
  rfl

/-- C1: every pair of `GetInstance` calls, in any order and from any callers
(that is, in any process states), returns the identical address: the address
of the one static instance, fixed by the layout for the life of the process. -/
theorem C1_getInstance_same_address (L : Layout) (s₁ s₂ s₁' s₂' : ProcState)
    (a₁ a₂ : Addr) (h₁ : GetInstance L s₁ = .ok (s₁', a₁))
    (h₂ : GetInstance L s₂ = .ok (s₂', a₂)) :
    a₁ = a₂ ∧ a₁ = L.addrOf .singletonInstance := by
  rw [GetInstance_eq] at h₁ h₂
  simp only [Except.ok.injEq, Prod.mk.injEq] at h₁ h₂
  rw [← h₁.2, ← h₂.2]
  exact ⟨rfl, rfl⟩

/-- Witness for C1: two concrete calls, one in the freshly loaded state and
one in the pre-load state, both return the address 4198400. -/
theorem C1_getInstance_same_address_witness :
    (4198400 : Addr) = 4198400 ∧
      (4198400 : Addr) = defaultLayout.addrOf .singletonInstance :=
  C1_getInstance_same_address defaultLayout afterLoad initState afterLoad initState
    4198400 4198400 rfl rfl

/-- C2: in every process execution, exactly one `Singleton` object is alive
after startup, however many `GetInstance` calls are made; and no operation of
the public contract can produce a second copy, since the copy and move
special members are unusable from every context. -/
theorem C2_exactly_one_instance (L : Layout) (n : Nat) :
    (∃ addrs, runTrace L initState (progTrace n) = .ok (afterLoad, addrs) ∧
      afterLoad.instanceCount = 1) ∧
    ∀ c : Context,
      usable c copyCtorDecl = false ∧ usable c copyAssignDecl = false ∧
      usable c moveCtorDecl = false ∧ usable c moveAssignDecl = false := by
  refine ⟨⟨List.replicate n (L.addrOf .singletonInstance), runTrace_prog L n, rfl⟩, ?_⟩
  intro c
  cases c <;> exact ⟨rfl, rfl, rfl, rfl⟩

/-- C3: copy-constructing or copy-assigning a `Singleton` fails to build in
every context, because both special members are deleted (lines 14-15). -/
theorem C3_noncopyable :
    ∀ c : Context, usable c copyCtorDecl = false ∧ usable c copyAssignDecl = false := by
  intro c
  cases c <;> exact ⟨rfl, rfl⟩

/-- C4: move-constructing or move-assigning a `Singleton` fails to build in
every context, because both special members are deleted (lines 16-17). -/
theorem C4_nonmovable :
    ∀ c : Context, usable c moveCtorDecl = false ∧ usable c moveAssignDecl = false := by
  intro c
  cases c <;> exact ⟨rfl, rfl⟩

/-- C5: load-time initialization constructs the instance and puts the holder
in the `Ready` state; the accessor body contains no conditional
initialization check (unlike the lazy Meyers body); in every process
execution each `GetInstance` call begins in a state where the holder is
`Ready` and the instance is fully constructed, because construction is
sequenced before all calls; and once `Ready`, no step of the process ever
takes the holder back. -/
theorem C5_eager_initialization (L : Layout) (n : Nat) :
    (afterLoad.holder = .Ready ∧ afterLoad.instanceCount = 1) ∧
    hasInitCheck getInstanceBody = false ∧
    hasInitCheck meyersBody = true ∧
    (∀ p ∈ (preStates L initState (progTrace n)).drop 1,
      p.holder = .Ready ∧ p.instanceCount = 1) ∧
    (∀ (s s' : ProcState) (e : Event) (a? : Option Addr),
      runEvent L s e = .ok (s', a?) → s.holder = .Ready → s'.holder = .Ready) := by
  refine ⟨⟨rfl, rfl⟩, rfl, rfl, ?_, ?_⟩
  · intro p hp
    rw [preStates_prog] at hp
    simp only [List.drop_succ_cons, List.drop_zero, List.eq_of_mem_replicate hp] at *
    exact ⟨rfl, rfl⟩
  · intro s s' e a? h hs
    cases e with
    | loadInit =>
      simp only [runEvent, Except.ok.injEq, Prod.mk.injEq] at h
      rw [← h.1]
      rfl
    | callGetInstance =>
      rw [runEvent_call] at h
      simp only [Except.ok.injEq, Prod.mk.injEq] at h
      rw [← h.1]
      exact hs

/-- Witness for C5: in the concrete layout with one call, the call's starting
state has a ready holder and one live instance; and a concrete step from the
loaded state keeps the holder ready. -/
theorem C5_eager_initialization_witness :
    (afterLoad.holder = .Ready ∧ afterLoad.instanceCount = 1) ∧
      afterLoad.holder = .Ready :=
  ⟨(C5_eager_initialization defaultLayout 1).2.2.2.1 afterLoad (by decide),
   (C5_eager_initialization defaultLayout 1).2.2.2.2 afterLoad afterLoad
     .callGetInstance (some 4198400) rfl rfl⟩

/-- C6: `GetInstance` never fails: in every layout and every process state it
returns a value and never signals an error. -/
theorem C6_getInstance_infallible (L : Layout) (s : ProcState) :
    (∃ p, GetInstance L s = .ok p) ∧ ∀ e, GetInstance L s ≠ .error e := by
  refine ⟨⟨(s, L.addrOf .singletonInstance), GetInstance_eq L s⟩, ?_⟩
  intro e h
  rw [GetInstance_eq] at h
  exact Except.noConfusion h

/-- C7: `GetInstance` is side-effect-free and never allocates: it returns the
process state unchanged together with the link-time constant address of the
static instance, a pure load. -/
theorem C7_getInstance_pure (L : Layout) (s : ProcState) :
    GetInstance L s = .ok (s, L.addrOf .singletonInstance) :=
  GetInstance_eq L s

/-- C8: the payload's construction is self-contained: the `Singleton` type is
empty (all values equal), and the defaulted constructor's body reads no other
static-storage object and changes nothing in the process state, so it cannot
depend on the initialization order of other static objects. -/
theorem C8_ctor_self_contained :
    ctorReads singletonCtorBody = [] ∧
    (∀ s : ProcState, execCtorBody s singletonCtorBody = s) ∧
    (∀ x y : Singleton, x = y) := by
  refine ⟨rfl, fun s => rfl, fun x y => ?_⟩
  cases x
  cases y
  rfl

/-- C9: `GetInstance` never returns a null pointer: in every layout and every
process state the returned address is the static instance's address, which is
nonzero. -/
theorem C9_getInstance_nonnull (L : Layout) (s : ProcState) :
    ∃ a, GetInstance L s = .ok (s, a) ∧ a ≠ 0 :=
  ⟨L.addrOf .singletonInstance, GetInstance_eq L s,
    L.addr_ne_null .singletonInstance⟩

/-- C10: no code outside the class can construct a `Singleton` value: every
constructor kind is unusable from the outside context (default is private,
copy and move are deleted), while the class itself can run its default
constructor (which is how the static instance is defined) and the public
`GetInstance` accessor remains the sole way for callers to reach the
instance. -/
theorem C10_no_outside_construction :
    (∀ k : CtorKind, usable .outsideClass (ctorDecl k) = false) ∧
    usable .insideClass defaultCtorDecl = true ∧
    getInstanceAccess = .publicAcc := by
  refine ⟨?_, rfl, rfl⟩
  intro k
  cases k <;> rfl

end SingletonRepo
